import Mathlib

/-!
Verification development for the `@stacks/codegen` contract-interface
generator.  The definitions below are a shallow embedding of the
TypeScript sources:

* `src/generators/hooks.ts` — the React hooks generator (string
  templates transcribed verbatim; literal braces, quotes and backticks
  are written with `\x7b`, `\x7d`, `\x27`, `\x60` escapes),
* `src/commands/generate.ts` — contract resolution and output
  selection,
* the contract-interface generator `src/generators/contract.ts` is not
  present in the repository snapshot (only its tests and callers are);
  the definitions that depend on it are modelled from the spec and are
  marked `Modelled from the spec:` in their doc comments.

Conventions of the embedding: JavaScript string values that may be
`undefined` are modelled as `Option String` where a definition branches
on definedness, and as the empty string where the source only ever
performs a truthiness test (JS treats `undefined` and `""` alike there);
identifiers are assumed to be ASCII, so `Char.toUpper` models
`String.prototype.toUpperCase` on the single characters involved.
-/

namespace Codegen

set_option maxRecDepth 40000

/-! ## String infrastructure -/

/-- Substring relation on strings: `Substr p s` holds when `p` occurs
contiguously inside `s` (the semantics of JS `String.prototype.includes`
and of the test-suite `toContain` matcher). -/
def Substr (p s : String) : Prop := p.data <:+: s.data

instance (p s : String) : Decidable (Substr p s) :=
  inferInstanceAs (Decidable (p.data <:+: s.data))

/-- Boolean substring test, used where the source calls
`String.prototype.includes`. -/
def jsIncludes (s pat : String) : Bool := decide (pat.data <:+: s.data)

/-- JS `Array.prototype.join(sep)`. -/
def joinSep (sep : String) : List String → String
  | [] => ""
  | [a] => a
  | a :: rest => a ++ sep ++ joinSep sep (rest)

/-- JS truthiness of a possibly-`undefined` string (`undefined` and the
empty string are the falsy cases). -/
def jsTruthyOpt : Option String → Bool
  | none => false
  | some s => s ≠ ""

/-- JS `a || b` for a possibly-`undefined` string `a` with a string
default `b`. -/
def jsOrStr (a : Option String) (b : String) : String :=
  match a with
  | none => b
  | some s => if s = "" then b else s

/-! ## Identifier utilities (src/generators/hooks.ts, lines 542-548) -/

/-- Character-list worker for `toCamelCase`: the global regex
`-([a-z])` (with flag `g`) replaces, left to right and without overlap,
each hyphen followed by an ASCII lowercase letter with that letter
uppercased. -/
def toCamelCaseAux : List Char → List Char
  | [] => []
  | '-' :: c :: rest =>
    if 'a' ≤ c ∧ c ≤ 'z' then c.toUpper :: toCamelCaseAux rest
    else '-' :: toCamelCaseAux (c :: rest)
  | c :: rest => c :: toCamelCaseAux rest

/-- `toCamelCase` from hooks.ts: replace every match of the global
regex `-([a-z])` by `(g) => g[1].toUpperCase()`. -/
def toCamelCase (s : String) : String := ⟨toCamelCaseAux s.data⟩

/-- `capitalize` from hooks.ts:
`str.charAt(0).toUpperCase() + str.slice(1)`.  The same expression is
written inline in `resolveContracts` (src/commands/generate.ts line
306). -/
def capitalize (s : String) : String :=
  match s.data with
  | [] => ""
  | c :: cs => ⟨c.toUpper :: cs⟩

/-! ## ABI type descriptions

Clarity ABI type descriptions arrive as loosely-typed JSON: either a
bare descriptor string (`"uint128"`, `"principal"`, …) or a one-key
object (`{ buff: { length: 256 } }`, `{ optional: T }`, …).  The
inductive below has one constructor per duck-typed object key that
`mapClarityTypeToTS` probes (`uint`, `int`, `principal`, `bool`,
`string`, `ascii`, `buff`, `optional`, `response`, `tuple`, `list`),
plus `strT` for the string form and constructors for the composite ABI
shapes whose key matches none of the probes (`string-ascii`,
`string-utf8`), which therefore fall through to the default arm.
`tupleT` carries no payload because the generator never inspects a
tuple's fields — tuples are mapped opaquely. -/
inductive ClarityAbiType where
  | strT (s : String)
  | uintT | intT | principalT | boolT
  | stringT | asciiT
  | stringAsciiT (length : Nat)
  | stringUtf8T (length : Nat)
  | buffT (length : Nat)
  | optionalT (t : ClarityAbiType)
  | responseT (ok err : ClarityAbiType)
  | tupleT
  | listT (length : Nat) (t : ClarityAbiType)
deriving DecidableEq, Repr

/-- Worker for the string arm of `mapClarityTypeToTS` (hooks.ts lines
608-624): `clarityType.replace(/optional\s*/, "")` removes the first
occurrence of `optional` together with the whitespace run after it. -/
def removeOptionalMatch (s : String) : String :=
  removeOptionalMatchAux s.data |> List.asString
where
  removeOptionalMatchAux : List Char → List Char
    | [] => []
    | c :: rest =>
      if "optional".data.isPrefixOf (c :: rest) then
        (c :: rest).drop 8 |>.dropWhile Char.isWhitespace
      else c :: removeOptionalMatchAux rest

/-- String arm of `mapClarityTypeToTS` (hooks.ts lines 608-624), with
the chain of `includes` tests in source order.  The recursion through
`optional` strictly shortens the string, so it is driven by a fuel
parameter that the wrapper seeds with more than the string length. -/
def mapClarityTypeToTSStr : Nat → String → String
  | 0, _ => "any"
  | fuel + 1, s =>
    if jsIncludes s "uint" || jsIncludes s "int" then "bigint"
    else if jsIncludes s "principal" then "string"
    else if jsIncludes s "bool" then "boolean"
    else if jsIncludes s "string" || jsIncludes s "ascii" then "string"
    else if jsIncludes s "buff" then "Uint8Array"
    else if jsIncludes s "optional" then
      mapClarityTypeToTSStr fuel ((removeOptionalMatch s).trim) ++ " | null"
    else if jsIncludes s "response" then "any"
    else if jsIncludes s "tuple" then "any"
    else if jsIncludes s "list" then "any[]"
    else "any"

/-- `mapClarityTypeToTS` (hooks.ts lines 590-625): the object arm
probes the duck-typed keys in source order; the string arm delegates to
`mapClarityTypeToTSStr`. -/
def mapClarityTypeToTS : ClarityAbiType → String
  | .strT s => mapClarityTypeToTSStr (s.length + 1) s
  | .uintT => "bigint"
  | .intT => "bigint"
  | .principalT => "string"
  | .boolT => "boolean"
  | .stringT => "string"
  | .asciiT => "string"
  | .buffT _ => "Uint8Array"
  | .optionalT t => mapClarityTypeToTS t ++ " | null"
  | .responseT _ _ => "any"
  | .tupleT => "any"
  | .listT _ _ => "any[]"
  | .stringAsciiT _ => "any"
  | .stringUtf8T _ => "any"

/-! ## ABI data model (clarity-abitype / src/types/config.ts) -/

/-- One typed argument of a contract function. -/
structure FunctionArg where
  name : String
  type : ClarityAbiType
deriving DecidableEq, Repr

/-- One contract function of an ABI.  `access` is one of `"public"`,
`"read-only"`, `"private"`. -/
structure ClarityFunction where
  name : String
  access : String
  args : List FunctionArg
  outputs : ClarityAbiType
deriving DecidableEq, Repr

/-- A parsed contract ABI (`abi.functions`; the source's
`abi.functions || []` guard cannot fire on this total model). -/
structure ClarityAbi where
  functions : List ClarityFunction
deriving DecidableEq, Repr

/-- `ResolvedContract` from src/types/config.ts. -/
structure ResolvedContract where
  name : String
  address : String
  contractName : String
  abi : ClarityAbi
  source : String
deriving DecidableEq, Repr


/-! ## Generic hook catalog (src/generators/hooks.ts, lines 9-20 and 162-538)

Each `body_useX` constant below is the exact template-literal value
returned by the corresponding `case` of `generateGenericHook`
(transcribed byte-for-byte; braces, single quotes and backticks appear
as `\x7b`, `\x7d`, `\x27`, `\x60` escapes). -/

def body_useAccount : String :=
  "export function useAccount() \x7b\n  const config = useStacksConfig()\n  \n  return useQuery(\x7b\n    queryKey: [\x27stacks-account\x27, config.network],\n    queryFn: async () => \x7b\n      try \x7b\n        // Check if already connected using @stacks/connect v8\n        const connected = isConnected()\n        \n        if (!connected) \x7b\n          return \x7b\n            address: undefined,\n            addresses: undefined,\n            isConnected: false,\n            isConnecting: false,\n            isDisconnected: true,\n            status: \x27disconnected\x27 as const\n          \x7d\n        \x7d\n\n        // Get addresses using @stacks/connect v8 request method (SIP-030)\n        const result = await request(\x27stx_getAddresses\x27)\n        \n        if (!result || !result.addresses || result.addresses.length === 0) \x7b\n          return \x7b\n            address: undefined,\n            addresses: undefined,\n            isConnected: false,\n            isConnecting: false,\n            isDisconnected: true,\n            status: \x27disconnected\x27 as const\n          \x7d\n        \x7d\n\n        // Extract STX addresses from the response\n        const stxAddresses = result.addresses\n          .filter((addr: any) => addr.address.startsWith(\x27SP\x27) || addr.address.startsWith(\x27ST\x27))\n          .map((addr: any) => addr.address)\n\n        return \x7b\n          address: stxAddresses[0] || undefined,\n          addresses: stxAddresses,\n          isConnected: true,\n          isConnecting: false,\n          isDisconnected: false,\n          status: \x27connected\x27 as const\n        \x7d\n      \x7d catch (error) \x7b\n        // Handle case where wallet is not available or user rejected\n        return \x7b\n          address: undefined,\n          addresses: undefined,\n          isConnected: false,\n          isConnecting: false,\n          isDisconnected: true,\n          status: \x27disconnected\x27 as const\n        \x7d\n      \x7d\n    \x7d,\n    refetchOnWindowFocus: false,\n    retry: false,\n    staleTime: 1000 * 60 * 5, // 5 minutes\n    refetchInterval: 1000 * 30, // Refetch every 30 seconds to detect wallet changes\n  \x7d)\n\x7d"

def body_useConnect : String :=
  "export function useConnect() \x7b\n  const queryClient = useQueryClient()\n  \n  const mutation = useMutation(\x7b\n    mutationFn: async (options: \x7b forceWalletSelect?: boolean \x7d = \x7b\x7d) => \x7b\n      // Use @stacks/connect v8 connect method\n      return await connect(options)\n    \x7d,\n    onSuccess: () => \x7b\n      // Invalidate account queries to refetch connection state\n      queryClient.invalidateQueries(\x7b queryKey: [\x27stacks-account\x27] \x7d)\n    \x7d,\n    onError: (error) => \x7b\n      console.error(\x27Connection failed:\x27, error)\n    \x7d\n  \x7d)\n\n  return \x7b\n    // Custom connect function that works without arguments\n    connect: (options?: \x7b forceWalletSelect?: boolean \x7d) => \x7b\n      return mutation.mutate(options || \x7b\x7d)\n    \x7d,\n    connectAsync: async (options?: \x7b forceWalletSelect?: boolean \x7d) => \x7b\n      return mutation.mutateAsync(options || \x7b\x7d)\n    \x7d,\n    // Expose all the mutation state\n    isPending: mutation.isPending,\n    isError: mutation.isError,\n    isSuccess: mutation.isSuccess,\n    error: mutation.error,\n    data: mutation.data,\n    reset: mutation.reset,\n    // Keep the original mutate/mutateAsync for advanced users\n    mutate: mutation.mutate,\n    mutateAsync: mutation.mutateAsync\n  \x7d\n\x7d"

def body_useDisconnect : String :=
  "export function useDisconnect() \x7b\n  const queryClient = useQueryClient()\n  \n  const mutation = useMutation(\x7b\n    mutationFn: async () => \x7b\n      // Use @stacks/connect v8 disconnect method\n      return await disconnect()\n    \x7d,\n    onSuccess: () => \x7b\n      // Clear all cached data on disconnect\n      queryClient.clear()\n    \x7d,\n    onError: (error) => \x7b\n      console.error(\x27Disconnect failed:\x27, error)\n    \x7d\n  \x7d)\n\n  return \x7b\n    // Custom disconnect function\n    disconnect: () => \x7b\n      return mutation.mutate()\n    \x7d,\n    disconnectAsync: async () => \x7b\n      return mutation.mutateAsync()\n    \x7d,\n    // Expose all the mutation state\n    isPending: mutation.isPending,\n    isError: mutation.isError,\n    isSuccess: mutation.isSuccess,\n    error: mutation.error,\n    data: mutation.data,\n    reset: mutation.reset,\n    // Keep the original mutate/mutateAsync for advanced users\n    mutate: mutation.mutate,\n    mutateAsync: mutation.mutateAsync\n  \x7d\n\x7d"

def body_useNetwork : String :=
  "export function useNetwork() \x7b\n  const config = useStacksConfig()\n  \n  return useQuery(\x7b\n    queryKey: [\x27stacks-network\x27, config.network],\n    queryFn: async () => \x7b\n      // Currently read-only from config\n      // Future: Use request(\x27stx_getNetworks\x27) when wallet support improves\n      const network = config.network\n      \n      return \x7b\n        network,\n        isMainnet: network === \x27mainnet\x27,\n        isTestnet: network === \x27testnet\x27, \n        isDevnet: network === \x27devnet\x27,\n        // Future: Add switchNetwork when wallets support stx_networkChange\n        // switchNetwork: async (newNetwork: string) => \x7b\n        //   return await request(\x27wallet_changeNetwork\x27, \x7b network: newNetwork \x7d)\n        // \x7d\n      \x7d\n    \x7d,\n    staleTime: Infinity, // Network config rarely changes\n    refetchOnWindowFocus: false,\n    retry: false\n  \x7d)\n\x7d"

def body_useContract : String :=
  "export function useContract<TArgs = any, TResult = any>(options?: \x7b\n  onSuccess?: (data: TResult) => void;\n  onError?: (error: Error) => void;\n\x7d) \x7b\n  const config = useStacksConfig()\n  const queryClient = useQueryClient()\n  \n  const mutation = useMutation<TResult, Error, \x7b contractAddress: string; contractName: string; functionName: string; functionArgs: any[]; network?: string \x7d>(\x7b\n    mutationFn: async (contractCall) => \x7b\n      try \x7b\n        const \x7b contractAddress, contractName, functionName, functionArgs \x7d = contractCall\n        const network = contractCall.network || config.network || \x27mainnet\x27\n        const contract = \x60$\x7bcontractAddress\x7d.$\x7bcontractName\x7d\x60\n        \n        // Try @stacks/connect v8 stx_callContract first (SIP-030)\n        try \x7b\n          const result = await request(\x27stx_callContract\x27, \x7b\n            contract,\n            functionName,\n            functionArgs,\n            network\n          \x7d)\n          \n          return result as TResult\n        \x7d catch (connectError) \x7b\n          // Fallback to openContractCall for broader wallet compatibility\n          console.warn(\x27stx_callContract not supported, falling back to openContractCall:\x27, connectError)\n          \n          return new Promise<TResult>((resolve, reject) => \x7b\n            openContractCall(\x7b\n              contractAddress,\n              contractName,\n              functionName,\n              functionArgs,\n              network,\n              onFinish: (data: any) => \x7b\n                resolve(data as TResult)\n              \x7d,\n              onCancel: () => \x7b\n                reject(new Error(\x27User cancelled transaction\x27))\n              \x7d\n            \x7d)\n          \x7d)\n        \x7d\n      \x7d catch (error) \x7b\n        throw error instanceof Error ? error : new Error(\x27Contract call failed\x27)\n      \x7d\n    \x7d,\n    onSuccess: (data) => \x7b\n      // Invalidate relevant queries\n      queryClient.invalidateQueries(\x7b \n        queryKey: [\x27stacks-account\x27] \n      \x7d)\n      \n      // Call user-provided success handler\n      options?.onSuccess?.(data)\n    \x7d,\n    onError: (error) => \x7b\n      console.error(\x27Contract call failed:\x27, error)\n      options?.onError?.(error)\n    \x7d\n  \x7d)\n  \n  return \x7b\n    broadcast: mutation.mutate,\n    broadcastAsync: mutation.mutateAsync,\n    isPending: mutation.isPending,\n    isError: mutation.isError,\n    isSuccess: mutation.isSuccess,\n    error: mutation.error,\n    data: mutation.data,\n    reset: mutation.reset\n  \x7d\n\x7d"

/-- Leading part of the `useReadContract` template, up to the
senderAddress line (the template value is the concatenation of the
three parts below). -/
def body_useReadContract_pre : String :=
  "export function useReadContract<TArgs = any, TResult = any>(params: \x7b\n  contractAddress: string;\n  contractName: string;\n  functionName: string;\n  args?: TArgs;\n  network?: \x27mainnet\x27 | \x27testnet\x27 | \x27devnet\x27;\n  enabled?: boolean;\n\x7d) \x7b\n  const config = useStacksConfig()\n  \n  return useQuery<TResult>(\x7b\n    queryKey: [\x27read-contract\x27, params.contractAddress, params.contractName, params.functionName, params.args, params.network || config.network],\n    queryFn: async () => \x7b\n      const \x7b fetchCallReadOnlyFunction \x7d = await import(\x27@stacks/transactions\x27)\n      \n      // For now, we\x27ll need to handle the args conversion here\n      // In the future, we could integrate with the contract interface for automatic conversion\n      let functionArgs: any[] = []\n      \n      if (params.args) \x7b\n        // This is a simplified conversion - in practice, we\x27d need the ABI to do proper conversion\n        // For now, we\x27ll assume the args are already in the correct format or simple types\n        if (Array.isArray(params.args)) \x7b\n          functionArgs = params.args\n        \x7d else if (typeof params.args === \x27object\x27) \x7b\n          // Convert object args to array (this is a basic implementation)\n          functionArgs = Object.values(params.args)\n        \x7d else \x7b\n          functionArgs = [params.args]\n        \x7d\n      \x7d\n      \n      return await fetchCallReadOnlyFunction(\x7b\n        contractAddress: params.contractAddress,\n        contractName: params.contractName,\n        functionName: params.functionName,\n        functionArgs,\n        network: params.network || config.network || \x27mainnet\x27,\n        "

/-- Trailing part of the `useReadContract` template, after the
senderAddress line. -/
def body_useReadContract_post : String :=
  "\n      \x7d) as TResult\n    \x7d,\n    enabled: params.enabled ?? true\n  \x7d)\n\x7d"

def body_useReadContract : String :=
  body_useReadContract_pre ++ "senderAddress: config.senderAddress || \x27SP000000000000000000002Q6VF78\x27" ++ body_useReadContract_post

def body_useTransaction : String :=
  "export function useTransaction(txId?: string) \x7b\n  const config = useStacksConfig()\n  \n  return useQuery(\x7b\n    queryKey: [\x27transaction\x27, txId, config.network],\n    queryFn: () => fetchTransaction(\x7b\n      txId: txId!,\n      network: config.network,\n      apiUrl: config.apiUrl\n    \x7d),\n    enabled: !!txId\n  \x7d)\n\x7d"

def body_useBlock : String :=
  "export function useBlock(height?: number) \x7b\n  const config = useStacksConfig()\n  \n  return useQuery(\x7b\n    queryKey: [\x27block\x27, height, config.network],\n    queryFn: () => fetchBlock(\x7b\n      height: height!,\n      network: config.network,\n      apiUrl: config.apiUrl\n    \x7d),\n    enabled: typeof height === \x27number\x27\n  \x7d)\n\x7d"

def body_useAccountTransactions : String :=
  "export function useAccountTransactions(address?: string) \x7b\n  const config = useStacksConfig()\n  \n  return useQuery(\x7b\n    queryKey: [\x27account-transactions\x27, address, config.network],\n    queryFn: () => fetchAccountTransactions(\x7b\n      address: address!,\n      network: config.network,\n      apiUrl: config.apiUrl\n    \x7d),\n    enabled: !!address\n  \x7d)\n\x7d"

def body_useWaitForTransaction : String :=
  "export function useWaitForTransaction() \x7b\n  const config = useStacksConfig()\n  \n  return useMutation(\x7b\n    mutationFn: async (txId: string) => \x7b\n      return new Promise((resolve, reject) => \x7b\n        const poll = async () => \x7b\n          try \x7b\n            const tx = await fetchTransaction(\x7b \n              txId, \n              network: config.network,\n              apiUrl: config.apiUrl\n            \x7d)\n            if (tx.tx_status === \x27success\x27) \x7b\n              resolve(tx)\n            \x7d else if (tx.tx_status === \x27abort_by_response\x27 || tx.tx_status === \x27abort_by_post_condition\x27) \x7b\n              reject(new Error(\x60Transaction failed: $\x7btx.tx_status\x7d\x60))\n            \x7d else \x7b\n              setTimeout(poll, 2000)\n            \x7d\n          \x7d catch (error) \x7b\n            reject(error)\n          \x7d\n        \x7d\n        poll()\n      \x7d)\n    \x7d\n  \x7d)\n\x7d"

/-- The fixed `GENERIC_HOOKS` catalog (hooks.ts lines 9-20). -/
def GENERIC_HOOKS : List String :=
  ["useAccount", "useConnect", "useDisconnect", "useNetwork", "useContract",
   "useReadContract", "useTransaction", "useBlock", "useAccountTransactions",
   "useWaitForTransaction"]

/-- `generateGenericHook` (hooks.ts lines 162-538): the `switch` on the
hook name, with the `default` arm returning the empty string. -/
def generateGenericHook (hookName : String) : String :=
  if hookName = "useAccount" then body_useAccount
  else if hookName = "useConnect" then body_useConnect
  else if hookName = "useDisconnect" then body_useDisconnect
  else if hookName = "useNetwork" then body_useNetwork
  else if hookName = "useContract" then body_useContract
  else if hookName = "useReadContract" then body_useReadContract
  else if hookName = "useTransaction" then body_useTransaction
  else if hookName = "useBlock" then body_useBlock
  else if hookName = "useAccountTransactions" then body_useAccountTransactions
  else if hookName = "useWaitForTransaction" then body_useWaitForTransaction
  else ""


/-! ## Contract hook generation (src/generators/hooks.ts, lines 90-160 and 550-630) -/

/-- `generateHookArgsSignature` (hooks.ts lines 550-557). -/
def generateHookArgsSignature (args : List FunctionArg) : String :=
  if args.length = 0 then ""
  else joinSep ", "
    (args.map (fun arg => toCamelCase arg.name ++ ": " ++ mapClarityTypeToTS arg.type))

/-- `generateArgsType` (hooks.ts lines 559-566). -/
def generateArgsType (args : List FunctionArg) : String :=
  if args.length = 0 then "void"
  else "\x7b " ++
    joinSep "; "
      (args.map (fun arg => toCamelCase arg.name ++ ": " ++ mapClarityTypeToTS arg.type)) ++
    " \x7d"

/-- `generateQueryKeyArgs` (hooks.ts lines 568-571). -/
def generateQueryKeyArgs (args : List FunctionArg) : String :=
  if args.length = 0 then ""
  else joinSep ", " (args.map (fun arg => toCamelCase arg.name))

/-- `generateFunctionCallArgs` (hooks.ts lines 573-576). -/
def generateFunctionCallArgs (args : List FunctionArg) : String :=
  if args.length = 0 then ""
  else joinSep ", " (args.map (fun arg => toCamelCase arg.name))

/-- `generateEnabledCondition` (hooks.ts lines 578-588): one truthiness
or definedness check per argument, joined with `&&`. -/
def generateEnabledCondition (args : List FunctionArg) : String :=
  joinSep " && "
    (args.map (fun arg =>
      let camelName := toCamelCase arg.name
      let type := mapClarityTypeToTS arg.type
      if type = "string" then "!!" ++ camelName
      else if type = "bigint" then camelName ++ " !== undefined"
      else camelName ++ " !== undefined"))

/-- `generateObjectArgs` (hooks.ts lines 627-630). -/
def generateObjectArgs (args : List FunctionArg) : String :=
  if args.length = 0 then ""
  else joinSep ", " (args.map (fun arg => arg.name ++ ": " ++ toCamelCase arg.name))

/-- `generateReadHook` (hooks.ts lines 112-133); the template literal
is transcribed segment by segment with the single-use local constants
(`hookName`, `argsSignature`, `enabledParam`) substituted in place. -/
def generateReadHook (func : ClarityFunction) (contractName : String) : String :=
  ("export function " ++
     ("use" ++ capitalize contractName ++ capitalize (toCamelCase func.name)) ++
     "(" ++ generateHookArgsSignature func.args ++
     (if func.args.length > 0 then ", options?: \x7b enabled?: boolean \x7d"
      else "options?: \x7b enabled?: boolean \x7d"))
  ++ (") \x7b\n  const config = useStacksConfig()\n  \n  return useQuery(\x7b\n    queryKey: [\x27" ++
      func.name ++ "\x27, " ++ contractName ++ ".address, " ++
      generateQueryKeyArgs func.args ++ "],\n    queryFn: () => " ++ contractName)
  ++ (".read." ++ toCamelCase func.name ++ "(")
  ++ (if generateFunctionCallArgs func.args ≠ "" then
        "\x7b " ++ generateObjectArgs func.args ++ " \x7d, "
      else "")
  ++ "\x7b \n      network: config.network,\n      senderAddress: config.senderAddress || \x27SP000000000000000000002Q6VF78\x27\n    \x7d),\n    "
  ++ (if func.args.length > 0 then
        "enabled: " ++ generateEnabledCondition func.args ++ " && (options?.enabled ?? true),"
      else "")
  ++ "\n    ...options\n  \x7d)\n\x7d"

/-- `generateWriteHook` (hooks.ts lines 135-160), transcribed the same
way. -/
def generateWriteHook (func : ClarityFunction) (contractName : String) : String :=
  ("export function " ++
     ("use" ++ capitalize contractName ++ capitalize (toCamelCase func.name)) ++
     "(options?: \x7b\n  onSuccess?: (data: any) => void;\n  onError?: (error: Error) => void;\n\x7d) \x7b\n  const contract = useContract<any, any>(options)\n  \n  return \x7b\n    ...contract,\n    broadcast: (args: " ++
     generateArgsType func.args)
  ++ (") => \x7b\n      const contractCallData = " ++ contractName ++ "." ++
      toCamelCase func.name ++
      "(args)\n      contract.broadcast(contractCallData)\n    \x7d,\n    broadcastAsync: async (args: " ++
      generateArgsType func.args)
  ++ (") => \x7b\n      const contractCallData = " ++ contractName ++ "." ++
      toCamelCase func.name ++
      "(args)\n      return contract.broadcastAsync(contractCallData)\n    \x7d\n  \x7d\n\x7d")

/-- `generateContractHookMethods` (hooks.ts lines 90-110): read hooks
for the `read-only` functions, then write hooks for the `public`
functions; `private` functions match neither filter. -/
def generateContractHookMethods (contract : ResolvedContract) : String :=
  let functions := contract.abi.functions
  let readOnlyFunctions := functions.filter (fun f => f.access == "read-only")
  let publicFunctions := functions.filter (fun f => f.access == "public")
  let readHooks := readOnlyFunctions.map (fun func => generateReadHook func contract.name)
  let writeHooks := publicFunctions.map (fun func => generateWriteHook func contract.name)
  joinSep "\n\n" (readHooks ++ writeHooks)

/-- `generateContractHooks` (hooks.ts lines 22-50).  Modelled from the
spec: the trailing `prettier.format` call is the external cosmetic
formatting pass (spec declares source-text pretty-printing out of scope
and the control flow lists the formatting pass as external), so it is
modelled as the identity on the assembled source text. -/
def generateContractHooks (contracts : List ResolvedContract) : String :=
  ("import \x7b useQuery, useMutation \x7d from \x27@tanstack/react-query\x27\nimport \x7b useStacksConfig \x7d from \x27./provider\x27\nimport \x7b useContract \x7d from \x27./stacks\x27\nimport \x7b " ++
     joinSep ", " (contracts.map (fun c => c.name)) ++
     " \x7d from \x27./contracts\x27" ++
   "\n\n" ++
   "/**\n * Generated contract-specific React hooks\n * DO NOT EDIT MANUALLY\n */" ++
   "\n\n")
  ++ joinSep "\n\n" (contracts.map (fun contract => generateContractHookMethods contract))

/-- `generateGenericHooks` (hooks.ts lines 52-88): hook names outside
the catalog produce the empty string, which `.filter(Boolean)` removes.
`includeHooks || [...GENERIC_HOOKS]` falls back to the full catalog
exactly when the argument is `undefined` (an empty array is truthy in
JS).  The `prettier.format` pass is modelled as the identity as in
`generateContractHooks`. -/
def generateGenericHooks (includeHooks : Option (List String)) : String :=
  let hooksToGenerate := includeHooks.getD GENERIC_HOOKS
  ("import \x7b useQuery, useMutation, useQueryClient \x7d from \x27@tanstack/react-query\x27\nimport \x7b useStacksConfig \x7d from \x27./provider\x27\nimport \x7b connect, disconnect, isConnected, request, openContractCall \x7d from \x27@stacks/connect\x27\nimport \x7b \n  fetchAccountInfo, \n  fetchTransaction, \n  fetchBlock,\n  fetchAccountTransactions \n\x7d from \x27./stacks-api\x27" ++
   "\n\n" ++
   "/**\n * Generated generic Stacks React hooks\n * DO NOT EDIT MANUALLY\n */" ++
   "\n\n")
  ++ joinSep "\n\n"
       ((hooksToGenerate.map (fun hookName => generateGenericHook hookName)).filter
         (fun s => s ≠ ""))


/-! ## Contract resolution (src/commands/generate.ts, lines 259-326) -/

/-- `NetworkName` from src/types/config.ts. -/
inductive NetworkName where
  | mainnet | testnet | devnet
deriving DecidableEq, Repr

/-- The string form of a network name (as interpolated into generated
identifiers). -/
def networkToString : NetworkName → String
  | .mainnet => "mainnet"
  | .testnet => "testnet"
  | .devnet => "devnet"

/-- Property lookup `source.address[network]` on the per-network address
record, modelled as an association list in key-insertion order
(JS object keys are unique and `Object.keys` preserves insertion
order). -/
def lookupAddr (entries : List (NetworkName × String)) (n : NetworkName) : Option String :=
  (entries.find? (fun e => decide (e.1 = n))).map (fun e => e.2)

/-- JS `contractId.split(".")`: split at every dot (structural model;
`"a.b"` gives `["a", "b"]`, a string without a dot gives the singleton
list of itself). -/
def jsSplitOnDot (s : String) : List String :=
  jsSplitOnDotAux s.data
where
  jsSplitOnDotAux : List Char → List String
    | [] => [""]
    | '.' :: rest => "" :: jsSplitOnDotAux rest
    | c :: rest =>
      match jsSplitOnDotAux rest with
      | [] => [⟨[c]⟩]
      | piece :: pieces => (⟨c :: piece.data⟩ : String) :: pieces

/-- Fallback base name (generate.ts line 300): every hyphen of the
on-chain contract name replaced by an underscore, then an underscore
prepended when the result starts with a digit (the two chained
`.replace` calls with regexes `-` global and `^\d`). -/
def fallbackBaseName (contractName : String) : String :=
  let underscored : String := ⟨contractName.data.map (fun c => if c = '-' then '_' else c)⟩
  match underscored.data with
  | [] => underscored
  | c :: _ => if c.isDigit then "_" ++ underscored else underscored

/-- Loop body of the multi-network branch of `resolveContracts`
(generate.ts lines 288-319).  `none` covers both `continue` on a falsy
`contractId` and the `catch` arm that warns and skips the network when
fetching the contract fails; `fetch` stands for the external
`StacksApiClient.getContractInfo` + `parseApiResponse` pipeline.  A
`contractId` without a dot yields an undefined `contractName`, modelled
as `""` per the conventions above. -/
def resolveMultiStep (srcName : Option String) (entries : List (NetworkName × String))
    (fetch : NetworkName → String → Option ClarityAbi) (network : NetworkName) :
    Option ResolvedContract :=
  match lookupAddr entries network with
  | none => none
  | some contractId =>
    if contractId = "" then none
    else
      match fetch network contractId with
      | none => none
      | some abi =>
        let parts := jsSplitOnDot contractId
        let contractAddress := parts.headD ""
        let contractName := (parts.drop 1).headD ""
        let baseName := jsOrStr srcName (fallbackBaseName contractName)
        let name :=
          if network = NetworkName.mainnet then baseName
          else networkToString network ++ capitalize baseName
        some ⟨name, contractAddress, contractName, abi, "api"⟩

/-- Multi-network branch of `resolveContracts` (generate.ts lines
276-323): when a default network is configured only that network is
targeted (and only if an address is configured for it); otherwise every
network key of the address record is targeted.  Networks whose loop
body yields `none` are skipped. -/
def resolveContractsMulti (srcName : Option String) (entries : List (NetworkName × String))
    (defaultNetwork : Option NetworkName)
    (fetch : NetworkName → String → Option ClarityAbi) : List ResolvedContract :=
  let networksToGenerate : List NetworkName :=
    match defaultNetwork with
    | some d => if jsTruthyOpt (lookupAddr entries d) then [d] else []
    | none => entries.map (fun e => e.1)
  networksToGenerate.filterMap (resolveMultiStep srcName entries fetch)

/-! ## Output selection (src/commands/generate.ts, lines 31-185) -/

/-- Hooks section of the output configuration
(`config.output.hooks`).  `stacksPath` models the `stacks` field and
`includeList` the `include` field (both renamed because the original
names are reserved words here). -/
structure HooksConfig where
  enabled : Bool
  contracts : Option String
  stacksPath : Option String
  includeList : Option (List String)
deriving DecidableEq, Repr

/-- The kinds of files a generation run writes. -/
inductive GeneratedKind where
  | contractsModule | provider | stacksApi | contractHooks | genericHooks
deriving DecidableEq, Repr

/-- File kinds written by `generateHooksFiles` (generate.ts lines
114-185): the React provider and the Stacks API utilities are written
unconditionally; contract hooks only when a contracts path is
configured and `config.output.runtime === "full"` (otherwise the run
warns and skips them); generic hooks whenever a stacks path is
configured, with no runtime check. -/
def generateHooksFilesKinds (runtime : Option String) (hooksConfig : HooksConfig) :
    List GeneratedKind :=
  [.provider, .stacksApi]
  ++ (if jsTruthyOpt hooksConfig.contracts then
        if runtime = some "full" then [.contractHooks] else []
      else [])
  ++ (if jsTruthyOpt hooksConfig.stacksPath then [.genericHooks] else [])

/-- File kinds written by `generate` (generate.ts lines 31-111): the
contracts module always, then — only if `config.output.hooks?.enabled`
— the hooks files of `generateHooksFilesKinds`. -/
def generateRunKinds (runtime : Option String) (hooks : Option HooksConfig) :
    List GeneratedKind :=
  [.contractsModule]
  ++ (match hooks with
      | some h => if h.enabled then generateHooksFilesKinds runtime h else []
      | none => [])

/-! ## Contract-interface generator, modelled from the spec

`src/generators/contract.ts` (`generateContractInterface`) is not part
of the repository snapshot — only its unit tests and its caller are —
so the definitions of this section are modelled from the spec (type
mapping table and buffer special case; contract emitter; empty-output
condition; testable properties) and from the strings the unit tests pin
down. -/

/-- Modelled from the spec: the generated parameter type for a
`buffer(n)` argument — the union of raw bytes, plain string, and the
tagged encoding variant. -/
def bufferUnionType : String :=
  "Uint8Array | string | \x7b type: \x27ascii\x27 | \x27utf8\x27 | \x27hex\x27; value: string \x7d"

/-- Modelled from the spec: the inline runtime dispatch emitted at
every buffer-argument call site, before the caller value is spliced in:
raw bytes pass through; a plain string is hex-decoded when it starts
with `0x` and treated as ASCII otherwise; a tagged variant dispatches
on its tag to the ascii/utf8/hex encoder; anything else raises an error
identifying the value.  The branch strings are the ones the unit tests
assert on. -/
def bufferDispatchOpen : String :=
  "((value) => \x7b\n  if (value instanceof Uint8Array) return Cl.buffer(value)\n  if (typeof value === \x27string\x27) \x7b\n    if (value.startsWith(\x270x\x27)) return Cl.bufferFromHex(value.slice(2))\n    return Cl.bufferFromAscii(value)\n  \x7d\n  if (typeof value === \x27object\x27 && value !== null && \x27type\x27 in value) \x7b\n    switch (value.type) \x7b\n      case \x27ascii\x27:\n        return Cl.bufferFromAscii(value.value)\n      case \x27utf8\x27:\n        return Cl.bufferFromUtf8(value.value)\n      case \x27hex\x27:\n        return Cl.bufferFromHex(value.value)\n    \x7d\n  \x7d\n  throw new Error(\x60Invalid buffer value: $\x7bJSON.stringify(value)\x7d\x60)\n\x7d)("

/-- Modelled from the spec: `mapType` — the ClarityType → TypeScript
type column of the spec's mapping table. -/
def mapType : ClarityAbiType → String
  | .strT s => mapClarityTypeToTSStr (s.length + 1) s
  | .uintT => "bigint"
  | .intT => "bigint"
  | .principalT => "string"
  | .boolT => "boolean"
  | .stringT => "string"
  | .asciiT => "string"
  | .stringAsciiT _ => "string"
  | .stringUtf8T _ => "string"
  | .buffT _ => bufferUnionType
  | .optionalT t => mapType t ++ " | null"
  | .responseT _ _ => "any"
  | .tupleT => "any"
  | .listT _ t => mapType t ++ "[]"

/-- Modelled from the spec: `mapToWireExpr` — the wire-constructor
column of the spec's mapping table, producing the conversion expression
for one argument value. -/
def mapToWireExpr : ClarityAbiType → String → String
  | .strT s, e =>
    if jsIncludes s "uint" then "Cl.uint(" ++ e ++ ")"
    else if jsIncludes s "int" then "Cl.int(" ++ e ++ ")"
    else if jsIncludes s "principal" then "Cl.standardPrincipal(" ++ e ++ ")"
    else if jsIncludes s "bool" then "Cl.bool(" ++ e ++ ")"
    else e
  | .uintT, e => "Cl.uint(" ++ e ++ ")"
  | .intT, e => "Cl.int(" ++ e ++ ")"
  | .principalT, e => "Cl.standardPrincipal(" ++ e ++ ")"
  | .boolT, e => "Cl.bool(" ++ e ++ ")"
  | .stringT, e => "Cl.stringAscii(" ++ e ++ ")"
  | .asciiT, e => "Cl.stringAscii(" ++ e ++ ")"
  | .stringAsciiT _, e => "Cl.stringAscii(" ++ e ++ ")"
  | .stringUtf8T _, e => "Cl.stringUtf8(" ++ e ++ ")"
  | .buffT _, e => bufferDispatchOpen ++ e ++ ")"
  | .optionalT t, e => e ++ " === null ? Cl.none() : Cl.some(" ++ mapToWireExpr t e ++ ")"
  | .responseT _ _, e => e
  | .tupleT, e => e
  | .listT _ _, e => e

/-- Runtime output mode (`RuntimeMode`). -/
inductive RuntimeMode where
  | minimal | full
deriving DecidableEq, Repr

/-- Functions surfaced in generated output: the `public` and
`read-only` functions (spec invariant: `private` functions are filtered
at the boundary; the hooks generator filters with exactly these two
access tests). -/
def surfacedFunctions (fs : List ClarityFunction) : List ClarityFunction :=
  fs.filter (fun f => f.access == "public" || f.access == "read-only")

/-- Modelled from the spec: the top-level members of one contract's
emitted block, per mode, written as the member-key strings the unit
tests assert on (`"transfer("` for a method, `"read:"` / `"write:"`
for the helper groups).  A contract with no public or read-only
function produces an empty block (spec's empty-output condition), hence
no members; `full` mode adds the `read:` group when a read-only
function exists, the `write:` group when a public function exists, and
one `fetch{Name}(` broadcast helper per public function. -/
def memberList (c : ResolvedContract) (mode : RuntimeMode) : List String :=
  let fs := surfacedFunctions c.abi.functions
  if fs.isEmpty then []
  else
    ["address:", "contractName:"] ++ fs.map (fun f => toCamelCase f.name ++ "(")
    ++ (match mode with
        | .minimal => []
        | .full =>
          (if (fs.filter (fun f => f.access == "read-only")).isEmpty then [] else ["read:"])
          ++ (if (fs.filter (fun f => f.access == "public")).isEmpty then [] else ["write:"])
          ++ (fs.filter (fun f => f.access == "public")).map
               (fun f => "fetch" ++ capitalize (toCamelCase f.name) ++ "("))

/-- Erase the `private` functions of a contract's ABI. -/
def stripPrivate (c : ResolvedContract) : ResolvedContract :=
  { c with abi := ⟨c.abi.functions.filter (fun f => !(f.access == "private"))⟩ }

/-! ## Runtime semantics of emitted guard expressions

The data-fetching hook emits the JS guard
`enabled: C1 && … && Cn && (options?.enabled ?? true)` where each `Ci`
is `!!x` for a string-typed argument and `x !== undefined` otherwise
(`generateEnabledCondition`).  The evaluator below gives those emitted
expressions their JS semantics over a small universe of JS values. -/

/-- A small universe of JS values, enough to evaluate the emitted
argument checks. -/
inductive JSValue where
  | undef
  | nullv
  | strv (s : String)
  | numv (n : Int)
  | boolv (b : Bool)
  | objv
deriving DecidableEq, Repr

/-- JS truthiness (`!!x`). -/
def jsTruthy : JSValue → Bool
  | .undef => false
  | .nullv => false
  | .strv s => s ≠ ""
  | .numv n => n ≠ 0
  | .boolv b => b
  | .objv => true

/-- Value of the check `generateEnabledCondition` emits for one
argument, at a given JS value: `!!x` when the argument's TS type is
`string`, `x !== undefined` otherwise (the `bigint` arm and the default
arm emit the same text). -/
def evalArgCheck (arg : FunctionArg) (v : JSValue) : Bool :=
  let type := mapClarityTypeToTS arg.type
  if type = "string" then jsTruthy v
  else if type = "bigint" then decide (v ≠ JSValue.undef)
  else decide (v ≠ JSValue.undef)

/-- Value of the emitted `&&`-chain of argument checks under an
environment mapping each (camelCased) parameter name to its JS
value. -/
def evalEnabledCondition (args : List FunctionArg) (env : String → JSValue) : Bool :=
  args.all (fun arg => evalArgCheck arg (env (toCamelCase arg.name)))

/-- Value of the whole emitted guard, conjoined with the caller's
`options?.enabled ?? true` (an absent option defaults to `true`). -/
def evalEnabledGuard (args : List FunctionArg) (env : String → JSValue)
    (optEnabled : Option Bool) : Bool :=
  evalEnabledCondition args env && optEnabled.getD true

/-- The `senderAddress` the emitted read call sites supply, as a
function of the configured sender address:
`config.senderAddress || 'SP000000000000000000002Q6VF78'`. -/
def emittedSenderAddress (configured : Option String) : String :=
  jsOrStr configured "SP000000000000000000002Q6VF78"

/-- The `senderAddress` line every emitted read call site contains. -/
def senderAddressDefaultLine : String :=
  "senderAddress: config.senderAddress || \x27SP000000000000000000002Q6VF78\x27"


/-! ## Concrete fixtures (from tests/generator.test.ts and the spec's
concrete scenarios), used to instantiate the theorems below -/

/-- The `get-token-uri` read-only function of the kebab-case test. -/
def getTokenUriFunc : ClarityFunction :=
  ⟨"get-token-uri", "read-only", [⟨"token-id", .strT "uint128"⟩], .stringAsciiT 256⟩

/-- The `get-balance` read-only function of the sample contract. -/
def getBalanceFunc : ClarityFunction :=
  ⟨"get-balance", "read-only", [⟨"account", .strT "principal"⟩], .strT "uint128"⟩

/-- The zero-argument `get-info` read-only function of the sample
contract. -/
def getInfoFunc : ClarityFunction :=
  ⟨"get-info", "read-only", [], .strT "bool"⟩

/-- The `transfer` public function of the sample contract. -/
def transferFunc : ClarityFunction :=
  ⟨"transfer", "public",
   [⟨"amount", .strT "uint128"⟩, ⟨"sender", .strT "principal"⟩,
    ⟨"recipient", .strT "principal"⟩],
   .responseT .boolT .uintT⟩

/-- The sample contract of tests/generator.test.ts. -/
def sampleContract : ResolvedContract :=
  ⟨"testContract", "SP2PABAF9FTAJYNFZH93XENAJ8FVY99RRM50D2JG9", "test-contract",
   ⟨[transferFunc, getBalanceFunc, getInfoFunc]⟩, "api"⟩

/-- A contract whose ABI has no functions at all. -/
def emptyContract : ResolvedContract :=
  ⟨"emptyContract", "SP123", "empty", ⟨[]⟩, "api"⟩

/-- A contract with one private function next to the sample
functions. -/
def contractWithPrivate : ResolvedContract :=
  ⟨"testContract", "SP2PABAF9FTAJYNFZH93XENAJ8FVY99RRM50D2JG9", "test-contract",
   ⟨[transferFunc, ⟨"internal-mint", "private", [], .strT "bool"⟩, getBalanceFunc]⟩, "api"⟩

/-- Per-network address record of the spec's multi-network scenario
(`daoContract` on mainnet, `dao-test` on testnet). -/
def daoEntries : List (NetworkName × String) :=
  [(NetworkName.mainnet, "SP2PABAF9FTAJYNFZH93XENAJ8FVY99RRM50D2JG9.dao"),
   (NetworkName.testnet, "ST2PABAF9FTAJYNFZH93XENAJ8FVY99RRM50D2JG9.dao-test")]

/-- A fetch oracle that succeeds with an empty ABI for every contract
id. -/
def fetchEmptyAbi : NetworkName → String → Option ClarityAbi :=
  fun _ _ => some ⟨[]⟩

/-- The testnet variant `resolveContracts` emits for `daoEntries`. -/
def daoTestnetVariant : ResolvedContract :=
  ⟨"testnetDao_test", "ST2PABAF9FTAJYNFZH93XENAJ8FVY99RRM50D2JG9", "dao-test", ⟨[]⟩, "api"⟩

/-- A hooks configuration with hooks enabled and both output paths
set. -/
def hooksConfigBothPaths : HooksConfig :=
  ⟨true, some "./src/generated/contract-hooks.ts", some "./src/generated/stacks-hooks.ts", none⟩

/-- An argument environment in which every parameter is
`undefined`. -/
def envAllUndefined : String → JSValue := fun _ => JSValue.undef


/-- Reference formulation of the camel-casing rule: each occurrence of
a hyphen followed by an ASCII lowercase letter is replaced by that
letter uppercased; a hyphen followed by anything else is left
unchanged. -/
def camelCaseSpecAux : List Char → List Char
  | [] => []
  | '-' :: c :: rest =>
    if c.isLower then c.toUpper :: camelCaseSpecAux rest
    else '-' :: camelCaseSpecAux (c :: rest)
  | c :: rest => c :: camelCaseSpecAux rest

/-- String wrapper of `camelCaseSpecAux`. -/
def camelCaseSpec (s : String) : String := ⟨camelCaseSpecAux s.data⟩


/-- The spec's naming rule for a multi-network variant: the `mainnet`
variant keeps the base name, every other network's variant is
`{network}{Capitalize(baseName)}`, where the base name is the
configured name or the sanitized on-chain contract name. -/
def specVariantName (srcName : Option String) (contractId : String)
    (network : NetworkName) : String :=
  let base := jsOrStr srcName (fallbackBaseName (((jsSplitOnDot contractId).drop 1).headD ""))
  if network = NetworkName.mainnet then base
  else networkToString network ++ capitalize base


/-! ## String lemmas -/

theorem data_append (a b : String) : (a ++ b).data = a.data ++ b.data := rfl

theorem substr_rfl (p : String) : Substr p p := ⟨[], [], by simp⟩

theorem substr_appendR {p a : String} (b : String) (h : Substr p a) : Substr p (a ++ b) := by
  unfold Substr at h ⊢
  rw [data_append]
  exact h.trans ⟨[], b.data, by simp⟩

theorem substr_appendL {p b : String} (a : String) (h : Substr p b) : Substr p (a ++ b) := by
  unfold Substr at h ⊢
  rw [data_append]
  exact h.trans ⟨a.data, [], by simp⟩

theorem substr_joinSep {s : String} (sep : String) :
    ∀ {l : List String}, s ∈ l → Substr s (joinSep sep l)
  | [], h => absurd h (List.not_mem_nil s)
  | [a], h => by
    rcases List.mem_singleton.mp h with rfl
    exact substr_rfl s
  | a :: b :: t, h => by
    rcases List.mem_cons.mp h with rfl | h'
    · exact substr_appendR _ (substr_appendR _ (substr_rfl s))
    · exact substr_appendL _ (substr_joinSep sep h')

theorem camelAux_eq : ∀ l : List Char, toCamelCaseAux l = camelCaseSpecAux l := by
  intro l
  induction l using toCamelCaseAux.induct with
  | case1 => rfl
  | case2 c rest h ih =>
    simp only [toCamelCaseAux, camelCaseSpecAux, ih]
    rw [if_pos h, if_pos (by simpa [Char.isLower] using h)]
  | case3 c rest h ih =>
    simp only [toCamelCaseAux, camelCaseSpecAux, ih]
    rw [if_neg h, if_neg (by simpa [Char.isLower] using h)]
  | case4 c rest h ih =>
    simp only [toCamelCaseAux, camelCaseSpecAux, ih]

/-! ## C1 -/

theorem substr_buffWire {p : String} (n : Nat) (e : String)
    (h : Substr p bufferDispatchOpen) : Substr p (mapToWireExpr (.buffT n) e) := by
  show Substr p (bufferDispatchOpen ++ e ++ ")")
  exact substr_appendR _ (substr_appendR _ h)

/-- C1: for a buffer-typed argument the generated parameter type is
exactly the union `Uint8Array | string | { type: 'ascii' | 'utf8' |
'hex'; value: string }`, and the generated call-site conversion
contains the raw-bytes check, the hex auto-detection on a `0x` prefix,
the ascii, utf8 and hex encoder branches, and the explicit error path
for unclassifiable values. -/
theorem buffer_argument_type_and_dispatch (n : Nat) (valueExpr : String) :
    mapType (.buffT n) =
      "Uint8Array | string | \x7b type: \x27ascii\x27 | \x27utf8\x27 | \x27hex\x27; value: string \x7d"
    ∧ Substr "value instanceof Uint8Array" (mapToWireExpr (.buffT n) valueExpr)
    ∧ Substr "value.startsWith(\x270x\x27)" (mapToWireExpr (.buffT n) valueExpr)
    ∧ Substr "Cl.bufferFromAscii" (mapToWireExpr (.buffT n) valueExpr)
    ∧ Substr "case \x27ascii\x27:" (mapToWireExpr (.buffT n) valueExpr)
    ∧ Substr "Cl.bufferFromUtf8" (mapToWireExpr (.buffT n) valueExpr)
    ∧ Substr "case \x27utf8\x27:" (mapToWireExpr (.buffT n) valueExpr)
    ∧ Substr "Cl.bufferFromHex" (mapToWireExpr (.buffT n) valueExpr)
    ∧ Substr "case \x27hex\x27:" (mapToWireExpr (.buffT n) valueExpr)
    ∧ Substr "throw new Error(\x60Invalid buffer value" (mapToWireExpr (.buffT n) valueExpr) :=
  ⟨rfl,
   substr_buffWire n valueExpr (by decide),
   substr_buffWire n valueExpr (by decide),
   substr_buffWire n valueExpr (by decide),
   substr_buffWire n valueExpr (by decide),
   substr_buffWire n valueExpr (by decide),
   substr_buffWire n valueExpr (by decide),
   substr_buffWire n valueExpr (by decide),
   substr_buffWire n valueExpr (by decide),
   substr_buffWire n valueExpr (by decide)⟩

/-! ## C3 -/

/-- C3 counterexample: `toCamelCase` does not replace a hyphen followed
by an arbitrary character — `"foo-Bar"` is returned unchanged, not
camel-cased to `"fooBar"` as the claimed replace-each-hyphen-followed-
by-a-character rule would require. -/
theorem toCamelCase_hyphen_uppercase_unchanged :
    toCamelCase "foo-Bar" = "foo-Bar" ∧ "foo-Bar" ≠ "fooBar" := by
  constructor
  · rfl
  · decide

/-- C3 (amended): `toCamelCase` is a pure total function replacing each
hyphen followed by an ASCII lowercase letter `x` by the uppercased `X`
(hyphens followed by any other character are left unchanged); in
particular `toCamelCase "get-token-uri" = "getTokenUri"`, and the
emitted data-fetching hook for `get-token-uri` calls the camel-cased
method `getTokenUri`. -/
theorem toCamelCase_rule_and_method_name :
    toCamelCase "get-token-uri" = "getTokenUri"
    ∧ (∀ s : String, toCamelCase s = camelCaseSpec s)
    ∧ (∀ contractName : String,
        Substr ".read.getTokenUri(" (generateReadHook getTokenUriFunc contractName)) := by
  refine ⟨by rfl, ?_, ?_⟩
  · intro s
    unfold toCamelCase camelCaseSpec
    exact congrArg String.mk (camelAux_eq s.data)
  · intro contractName
    unfold generateReadHook
    apply substr_appendR
    apply substr_appendR
    apply substr_appendR
    apply substr_appendR
    apply substr_appendL
    decide


/-! ## C8 -/

/-- C8: every emitted read call site supplies a `senderAddress`
defaulting to the placeholder burn address
`SP000000000000000000002Q6VF78`: every contract data-fetching hook and
the generic `useReadContract` hook contain the defaulting line
verbatim, and the emitted default expression evaluates to the burn
address when no sender address is configured (absent or empty). -/
theorem read_call_sites_sender_default :
    (∀ (func : ClarityFunction) (contractName : String),
        Substr senderAddressDefaultLine (generateReadHook func contractName))
    ∧ Substr senderAddressDefaultLine body_useReadContract
    ∧ emittedSenderAddress none = "SP000000000000000000002Q6VF78"
    ∧ emittedSenderAddress (some "") = "SP000000000000000000002Q6VF78" := by
  refine ⟨?_, ?_, rfl, rfl⟩
  case refine_2 =>
    unfold body_useReadContract
    apply substr_appendR
    apply substr_appendL
    decide
  intro func contractName
  unfold generateReadHook
  apply substr_appendR
  apply substr_appendR
  apply substr_appendL
  decide

/-! ## C7 -/

/-- C7: for every read-only function with at least one argument the
emitted hook contains the guard
`enabled: C1 && … && Cn && (options?.enabled ?? true)` built from the
per-argument checks; the guard's JS value is `false` whenever some
argument is `undefined` (for any caller `enabled` option); and a
zero-argument function's hook contains no `enabled:` guard at all. -/
theorem read_hook_enabled_guard :
    (∀ (func : ClarityFunction) (contractName : String), func.args ≠ [] →
        Substr ("enabled: " ++ generateEnabledCondition func.args ++
                " && (options?.enabled ?? true),")
          (generateReadHook func contractName))
    ∧ (∀ (args : List FunctionArg) (env : String → JSValue) (optEnabled : Option Bool)
         (a : FunctionArg), a ∈ args → env (toCamelCase a.name) = JSValue.undef →
           evalEnabledGuard args env optEnabled = false)
    ∧ ¬ Substr "enabled:" (generateReadHook getInfoFunc "testContract") := by
  refine ⟨?_, ?_, by decide⟩
  · intro func contractName hne
    unfold generateReadHook
    apply substr_appendR
    apply substr_appendL
    rw [if_pos (List.length_pos.mpr hne)]
    exact substr_rfl _
  · intro args env optEnabled a ha hundef
    have hfalse : evalArgCheck a (env (toCamelCase a.name)) = false := by
      rw [hundef]
      simp [evalArgCheck, jsTruthy]
    have hcond : evalEnabledCondition args env = false := by
      unfold evalEnabledCondition
      cases hall : args.all (fun arg => evalArgCheck arg (env (toCamelCase arg.name)))
      · rfl
      · have := List.all_eq_true.mp hall a ha
        rw [hfalse] at this
        cases this
    unfold evalEnabledGuard
    rw [hcond]
    rfl

/-! ## C9 -/

theorem genericHook_not_in_catalog {h : String} (hh : h ∉ GENERIC_HOOKS) :
    generateGenericHook h = "" := by
  simp only [GENERIC_HOOKS, List.mem_cons, List.not_mem_nil, or_false, not_or] at hh
  obtain ⟨h1, h2, h3, h4, h5, h6, h7, h8, h9, h10⟩ := hh
  unfold generateGenericHook
  rw [if_neg h1, if_neg h2, if_neg h3, if_neg h4, if_neg h5, if_neg h6, if_neg h7,
      if_neg h8, if_neg h9, if_neg h10]

theorem genericHook_catalog_nonempty : ∀ h ∈ GENERIC_HOOKS, generateGenericHook h ≠ "" := by
  decide

theorem genericHooks_filtered_maps_eq (inc : List String) :
    ((inc.map generateGenericHook).filter (fun s => s ≠ ""))
      = (((inc.filter (fun h => decide (h ∈ GENERIC_HOOKS))).map generateGenericHook).filter
          (fun s => s ≠ "")) := by
  induction inc with
  | nil => rfl
  | cons h t ih =>
    by_cases hc : h ∈ GENERIC_HOOKS
    · simp only [List.map_cons, List.filter_cons, hc, decide_True, if_true]
      rw [ih]
    · have hempty : generateGenericHook h = "" := genericHook_not_in_catalog hc
      have hd : decide (h ∈ GENERIC_HOOKS) = false := by simpa using hc
      simp only [List.map_cons, List.filter_cons, hd, Bool.false_eq_true, if_false, hempty]
      simpa using ih

/-- C9: `generateGenericHooks` tolerates unknown names in the caller's
inclusion list — names outside the catalog emit the empty string, which
the filter removes, so the output equals the output for the list
restricted to the catalog, and no error is possible (the embedding is a
total function); with no inclusion list, every hook of the fixed
catalog appears in the output. -/
theorem generic_hooks_inclusion_list :
    (∀ inc : List String,
        generateGenericHooks (some inc)
          = generateGenericHooks (some (inc.filter (fun h => decide (h ∈ GENERIC_HOOKS)))))
    ∧ (∀ h ∈ GENERIC_HOOKS, Substr (generateGenericHook h) (generateGenericHooks none)) := by
  constructor
  · intro inc
    unfold generateGenericHooks
    simp only [Option.getD_some]
    exact congrArg _ (congrArg (joinSep "\n\n") (genericHooks_filtered_maps_eq inc))
  · intro h hh
    unfold generateGenericHooks
    apply substr_appendL
    apply substr_joinSep
    refine List.mem_filter.mpr ⟨List.mem_map_of_mem _ hh, ?_⟩
    simpa using genericHook_catalog_nonempty h hh


/-! ## C2 -/

/-- C2: every variant emitted for a multi-network contract is named by
the spec's rule — the `mainnet` variant keeps the base name and every
other network's variant is `{network}{Capitalize(baseName)}` — and a
target network with no configured address contributes nothing (the loop
body yields `none`; the resolver is a total function, so no error is
raised). -/
theorem multi_network_naming_and_skip :
    (∀ (srcName : Option String) (entries : List (NetworkName × String))
       (dflt : Option NetworkName) (fetch : NetworkName → String → Option ClarityAbi)
       (r : ResolvedContract), r ∈ resolveContractsMulti srcName entries dflt fetch →
         ∃ net cid, lookupAddr entries net = some cid ∧ cid ≠ ""
           ∧ (fetch net cid).isSome ∧ r.name = specVariantName srcName cid net)
    ∧ (∀ (srcName : Option String) (entries : List (NetworkName × String))
         (fetch : NetworkName → String → Option ClarityAbi) (net : NetworkName),
           lookupAddr entries net = none →
             resolveMultiStep srcName entries fetch net = none) := by
  constructor
  · intro srcName entries dflt fetch r hr
    simp only [resolveContractsMulti] at hr
    obtain ⟨net, _, hstep⟩ := List.mem_filterMap.mp hr
    cases hlook : lookupAddr entries net with
    | none => simp [resolveMultiStep, hlook] at hstep
    | some cid =>
      by_cases hcid : cid = ""
      · simp [resolveMultiStep, hlook, hcid] at hstep
      · cases hfetch : fetch net cid with
        | none => simp [resolveMultiStep, hlook, hcid, hfetch] at hstep
        | some abi =>
          refine ⟨net, cid, hlook, hcid, by simp [hfetch], ?_⟩
          simp only [resolveMultiStep, hlook, hcid, hfetch, if_false] at hstep
          obtain rfl := Option.some_injective _ hstep
          rfl
  · intro srcName entries fetch net hlook
    simp [resolveMultiStep, hlook]

/-- C2 witness: on the mainnet/testnet `dao` fixture the testnet
variant emitted by the resolver carries the spec-rule name
(`testnetDao_test`), and the unconfigured `devnet` network is skipped
without an error. -/
theorem multi_network_naming_witness :
    (∃ net cid, lookupAddr daoEntries net = some cid ∧ cid ≠ ""
       ∧ (fetchEmptyAbi net cid).isSome
       ∧ daoTestnetVariant.name = specVariantName none cid net)
    ∧ resolveMultiStep none daoEntries fetchEmptyAbi NetworkName.devnet = none :=
  ⟨multi_network_naming_and_skip.1 none daoEntries none fetchEmptyAbi daoTestnetVariant
     (by decide),
   multi_network_naming_and_skip.2 none daoEntries fetchEmptyAbi NetworkName.devnet
     (by decide)⟩

/-! ## C10 -/

/-- C10: when a default network is configured, at most one variant is
resolved and any resolved variant is exactly the default network's one;
when no default network is configured, every configured network whose
per-network resolution succeeds contributes its variant. -/
theorem default_network_restricts_variants :
    (∀ (srcName : Option String) (entries : List (NetworkName × String))
       (fetch : NetworkName → String → Option ClarityAbi) (net : NetworkName),
        (resolveContractsMulti srcName entries (some net) fetch).length ≤ 1)
    ∧ (∀ (srcName : Option String) (entries : List (NetworkName × String))
         (fetch : NetworkName → String → Option ClarityAbi) (net : NetworkName)
         (r : ResolvedContract),
           r ∈ resolveContractsMulti srcName entries (some net) fetch →
             resolveMultiStep srcName entries fetch net = some r)
    ∧ (∀ (srcName : Option String) (entries : List (NetworkName × String))
         (fetch : NetworkName → String → Option ClarityAbi) (net : NetworkName)
         (r : ResolvedContract), net ∈ entries.map (fun e => e.1) →
           resolveMultiStep srcName entries fetch net = some r →
             r ∈ resolveContractsMulti srcName entries none fetch) := by
  refine ⟨?_, ?_, ?_⟩
  · intro srcName entries fetch net
    simp only [resolveContractsMulti]
    split
    · cases h : resolveMultiStep srcName entries fetch net <;>
        simp [List.filterMap, h]
    · simp
  · intro srcName entries fetch net r hr
    simp only [resolveContractsMulti] at hr
    obtain ⟨a, ha, hstep⟩ := List.mem_filterMap.mp hr
    split at ha
    · rw [List.mem_singleton.mp ha] at hstep
      exact hstep
    · cases ha
  · intro srcName entries fetch net r hmem hstep
    simp only [resolveContractsMulti]
    exact List.mem_filterMap.mpr ⟨net, hmem, hstep⟩

/-- C10 witness: on the `dao` fixture with default network `testnet`
only the testnet variant is resolved; with no default network the
testnet variant is (also) among the emitted variants. -/
theorem default_network_restricts_variants_witness :
    (resolveContractsMulti none daoEntries (some NetworkName.testnet) fetchEmptyAbi).length ≤ 1
    ∧ resolveMultiStep none daoEntries fetchEmptyAbi NetworkName.testnet = some daoTestnetVariant
    ∧ daoTestnetVariant ∈ resolveContractsMulti none daoEntries none fetchEmptyAbi :=
  ⟨default_network_restricts_variants.1 none daoEntries fetchEmptyAbi NetworkName.testnet,
   default_network_restricts_variants.2.1 none daoEntries fetchEmptyAbi NetworkName.testnet
     daoTestnetVariant (by decide),
   default_network_restricts_variants.2.2 none daoEntries fetchEmptyAbi NetworkName.testnet
     daoTestnetVariant (by decide) (by decide)⟩


/-! ## C4 -/

theorem append_paren_ne {s t : String} (ht : t.data.getLast? ≠ some '(') :
    s ++ "(" ≠ t := by
  intro he
  apply ht
  rw [← he, data_append]
  simp

/-- C4 counterexample: for a contract whose ABI has no public or
read-only function, both modes emit the empty member list, so the
`full`-mode member set is not a strict superset of the `minimal`-mode
member set. -/
theorem empty_contract_members_not_strict :
    memberList emptyContract RuntimeMode.full = memberList emptyContract RuntimeMode.minimal
    ∧ ¬ ∃ m ∈ memberList emptyContract RuntimeMode.full,
          m ∉ memberList emptyContract RuntimeMode.minimal := by
  constructor
  · decide
  · decide

/-- C4 (amended): for every contract with at least one surfaced
(public or read-only) function, the `full`-mode top-level member set is
a strict superset of the `minimal`-mode member set. -/
theorem full_mode_members_strict_superset (c : ResolvedContract)
    (h : surfacedFunctions c.abi.functions ≠ []) :
    (∀ m ∈ memberList c RuntimeMode.minimal, m ∈ memberList c RuntimeMode.full)
    ∧ ∃ m ∈ memberList c RuntimeMode.full, m ∉ memberList c RuntimeMode.minimal := by
  obtain ⟨f, fs, hfs⟩ : ∃ f fs, surfacedFunctions c.abi.functions = f :: fs := by
    cases hx : surfacedFunctions c.abi.functions with
    | nil => exact absurd hx h
    | cons f fs => exact ⟨f, fs, rfl⟩
  have hfmem : f ∈ surfacedFunctions c.abi.functions := hfs ▸ List.mem_cons_self f fs
  have hpred := (List.mem_filter.mp hfmem).2
  constructor
  · intro m hm
    simp only [memberList, hfs, List.isEmpty_cons, Bool.false_eq_true, if_false,
      List.append_nil] at hm ⊢
    exact List.mem_append_left _ hm
  · have hor : (f.access == "public") = true ∨ (f.access == "read-only") = true := by
      cases hp : (f.access == "public") with
      | true => exact Or.inl rfl
      | false => rw [hp] at hpred; simp at hpred; simp [hpred]
    rcases hor with hpub | hro
    · refine ⟨"write:", ?_, ?_⟩
      · simp only [memberList, hfs, List.isEmpty_cons, Bool.false_eq_true, if_false]
        apply List.mem_append_right
        have hw : (List.filter (fun g => g.access == "public") (f :: fs)).isEmpty = false := by
          simp [List.filter_cons, hpub]
        apply List.mem_append_left
        apply List.mem_append_right
        rw [hw]
        simp
      · simp only [memberList, hfs, List.isEmpty_cons, Bool.false_eq_true, if_false,
          List.append_nil]
        intro hmem
        rcases List.mem_append.mp hmem with h1 | h2
        · exact absurd h1 (by decide)
        · rcases List.mem_map.mp h2 with ⟨g, _, hg⟩
          exact append_paren_ne (by decide) hg
    · refine ⟨"read:", ?_, ?_⟩
      · simp only [memberList, hfs, List.isEmpty_cons, Bool.false_eq_true, if_false]
        apply List.mem_append_right
        have hr : (List.filter (fun g => g.access == "read-only") (f :: fs)).isEmpty = false := by
          simp [List.filter_cons, hro]
        apply List.mem_append_left
        apply List.mem_append_left
        rw [hr]
        simp
      · simp only [memberList, hfs, List.isEmpty_cons, Bool.false_eq_true, if_false,
          List.append_nil]
        intro hmem
        rcases List.mem_append.mp hmem with h1 | h2
        · exact absurd h1 (by decide)
        · rcases List.mem_map.mp h2 with ⟨g, _, hg⟩
          exact append_paren_ne (by decide) hg

/-- C4 witness: the sample contract has surfaced functions and its
full-mode member set strictly contains the minimal-mode one. -/
theorem full_mode_members_strict_superset_witness :
    surfacedFunctions sampleContract.abi.functions ≠ []
    ∧ ((∀ m ∈ memberList sampleContract RuntimeMode.minimal,
          m ∈ memberList sampleContract RuntimeMode.full)
       ∧ ∃ m ∈ memberList sampleContract RuntimeMode.full,
           m ∉ memberList sampleContract RuntimeMode.minimal) :=
  ⟨by decide, full_mode_members_strict_superset sampleContract (by decide)⟩


/-! ## C5 -/

theorem filter_access_stripPrivate (fs : List ClarityFunction) (a : String)
    (ha : a ≠ "private") :
    (fs.filter (fun f => !(f.access == "private"))).filter (fun f => f.access == a)
      = fs.filter (fun f => f.access == a) := by
  induction fs with
  | nil => rfl
  | cons f t ih =>
    by_cases hf : f.access = a
    · have h1 : (f.access == a) = true := by simp [hf]
      have h2 : (!(f.access == "private")) = true := by simp [hf, ha]
      simp [List.filter_cons, h1, h2, ih]
    · have h1 : (f.access == a) = false := by simp [hf]
      by_cases hp : f.access = "private"
      · simp [List.filter_cons, h1, hp, ih, Ne.symm ha]
      · simp [List.filter_cons, h1, hp, ih]

theorem surfaced_stripPrivate (fs : List ClarityFunction) :
    surfacedFunctions (fs.filter (fun f => !(f.access == "private")))
      = surfacedFunctions fs := by
  unfold surfacedFunctions
  induction fs with
  | nil => rfl
  | cons f t ih =>
    by_cases hp : f.access = "private"
    · have h1 : (f.access == "public" || f.access == "read-only") = false := by simp [hp]
      simp [List.filter_cons, hp, h1, ih]
    · by_cases hq : (f.access == "public" || f.access == "read-only") = true
      · simp [List.filter_cons, hp, hq, ih]
      · simp at hq
        simp [List.filter_cons, hp, hq, ih]

theorem methods_stripPrivate (c : ResolvedContract) :
    generateContractHookMethods (stripPrivate c) = generateContractHookMethods c := by
  unfold generateContractHookMethods stripPrivate
  simp only []
  rw [filter_access_stripPrivate _ "read-only" (by decide),
      filter_access_stripPrivate _ "public" (by decide)]

/-- C5: private functions are filtered out before any emission — the
generated contract-hooks module is unchanged when a contract's private
functions are erased, the (spec-modelled) contracts-module member list
is unchanged in both runtime modes, and (given the per-contract
uniqueness of function names) a private function's name is never among
the function names the emitters consult. -/
theorem private_functions_filtered :
    (∀ contracts : List ResolvedContract,
        generateContractHooks (contracts.map stripPrivate) = generateContractHooks contracts)
    ∧ (∀ (c : ResolvedContract) (mode : RuntimeMode),
        memberList (stripPrivate c) mode = memberList c mode)
    ∧ (∀ (c : ResolvedContract) (f : ClarityFunction), f ∈ c.abi.functions →
        f.access = "private" → (c.abi.functions.map (fun g => g.name)).Nodup →
          f.name ∉ (surfacedFunctions c.abi.functions).map (fun g => g.name)) := by
  refine ⟨?_, ?_, ?_⟩
  · intro contracts
    have hnames : (contracts.map stripPrivate).map (fun c => c.name)
        = contracts.map (fun c => c.name) := by
      rw [List.map_map]
      rfl
    have hmethods : (contracts.map stripPrivate).map
          (fun contract => generateContractHookMethods contract)
        = contracts.map (fun contract => generateContractHookMethods contract) := by
      rw [List.map_map]
      exact List.map_congr_left (fun c _ => methods_stripPrivate c)
    unfold generateContractHooks
    rw [hnames, hmethods]
  · intro c mode
    have h : surfacedFunctions (stripPrivate c).abi.functions
        = surfacedFunctions c.abi.functions := surfaced_stripPrivate c.abi.functions
    unfold memberList
    rw [h]
  · intro c f hf hpriv hnodup hmem
    rcases List.mem_map.mp hmem with ⟨g, hgmem, hgname⟩
    have hgfs : g ∈ c.abi.functions := (List.mem_filter.mp hgmem).1
    have hgpred := (List.mem_filter.mp hgmem).2
    have hne : g ≠ f := by
      intro heq
      rw [heq, hpriv] at hgpred
      simp at hgpred
    exact hne (List.inj_on_of_nodup_map hnodup hgfs hf hgname)

/-- C5 witness: erasing the private `internal-mint` function of the
fixture contract changes neither the hooks module nor the full-mode
member list, and its name is not among the surfaced function names. -/
theorem private_functions_filtered_witness :
    generateContractHooks ([contractWithPrivate].map stripPrivate)
        = generateContractHooks [contractWithPrivate]
    ∧ memberList (stripPrivate contractWithPrivate) RuntimeMode.full
        = memberList contractWithPrivate RuntimeMode.full
    ∧ "internal-mint" ∉ (surfacedFunctions contractWithPrivate.abi.functions).map
        (fun g => g.name) :=
  ⟨private_functions_filtered.1 [contractWithPrivate],
   private_functions_filtered.2.1 contractWithPrivate RuntimeMode.full,
   private_functions_filtered.2.2 contractWithPrivate
     ⟨"internal-mint", "private", [], .strT "bool"⟩ (by decide) rfl (by decide)⟩

/-! ## C6 -/

/-- C6 counterexample: with hooks enabled, a generic-hooks output path
configured and runtime `minimal` (≠ `full`), the run still produces the
generic-hooks output — hooks output is not restricted to `full` mode. -/
theorem generic_hooks_emitted_in_minimal_runtime :
    GeneratedKind.genericHooks ∈ generateRunKinds (some "minimal") (some hooksConfigBothPaths)
    ∧ (some "minimal" : Option String) ≠ some "full"
    ∧ hooksConfigBothPaths.enabled = true := by
  decide

/-- C6 (amended): the runtime-mode restriction applies to the
contract-hooks output only — for every run with runtime ≠ `full`, no
contract-hooks output is produced (the run warns and skips it), while
the provider, the API utilities and, when configured, the generic-hooks
output are produced regardless of the runtime mode. -/
theorem contract_hooks_require_full_runtime (runtime : Option String)
    (hooks : Option HooksConfig) (hruntime : runtime ≠ some "full") :
    GeneratedKind.contractHooks ∉ generateRunKinds runtime hooks := by
  intro hmem
  simp only [generateRunKinds, generateHooksFilesKinds] at hmem
  rcases hooks with _ | hcfg
  · simp at hmem
  · split_ifs at hmem <;> simp_all

/-- C6 witness: with runtime `minimal` and hooks enabled on both paths,
no contract-hooks output is produced. -/
theorem contract_hooks_require_full_runtime_witness :
    (some "minimal" : Option String) ≠ some "full"
    ∧ GeneratedKind.contractHooks ∉
        generateRunKinds (some "minimal") (some hooksConfigBothPaths) :=
  ⟨by decide,
   contract_hooks_require_full_runtime (some "minimal") (some hooksConfigBothPaths) (by decide)⟩


/-- C7 witness: the `get-balance` hook contains its enabled guard, and
the guard evaluates to false when the `account` argument is
`undefined`. -/
theorem read_hook_enabled_guard_witness :
    (getBalanceFunc.args ≠ []
      ∧ Substr ("enabled: " ++ generateEnabledCondition getBalanceFunc.args ++
                " && (options?.enabled ?? true),")
          (generateReadHook getBalanceFunc "testContract"))
    ∧ evalEnabledGuard getBalanceFunc.args envAllUndefined none = false :=
  ⟨⟨by decide, read_hook_enabled_guard.1 getBalanceFunc "testContract" (by decide)⟩,
   read_hook_enabled_guard.2.1 getBalanceFunc.args envAllUndefined none
     ⟨"account", .strT "principal"⟩ (by decide) rfl⟩

/-- C9 witness: with no inclusion list, the catalog hook `useAccount`
appears in the generic-hooks output. -/
theorem generic_hooks_inclusion_list_witness :
    Substr (generateGenericHook "useAccount") (generateGenericHooks none) :=
  generic_hooks_inclusion_list.2 "useAccount" (by decide)

end Codegen
